import Mathlib

/-!
Verification development for the physics simulation core of the
ProjectileMotionAccelerate repository (src/src/physics and the unnamed
source parts). All machine numbers are modelled as real numbers; the
JavaScript Math functions sin, cos, exp, sqrt, floor and pow are modelled
by their exact counterparts on the reals.
-/

namespace ProjectileSim

/-- Three-component vector, modelling THREE.Vector3 as the physics core uses it. -/
@[ext]
structure Vec3 where
  x : ℝ
  y : ℝ
  z : ℝ

def Vec3.zero : Vec3 := ⟨0, 0, 0⟩

def Vec3.add (a b : Vec3) : Vec3 := ⟨a.x + b.x, a.y + b.y, a.z + b.z⟩

def Vec3.sub (a b : Vec3) : Vec3 := ⟨a.x - b.x, a.y - b.y, a.z - b.z⟩

def Vec3.smul (k : ℝ) (v : Vec3) : Vec3 := ⟨k * v.x, k * v.y, k * v.z⟩

def Vec3.dot (a b : Vec3) : ℝ := a.x * b.x + a.y * b.y + a.z * b.z

def Vec3.cross (a b : Vec3) : Vec3 :=
  ⟨a.y * b.z - a.z * b.y, a.z * b.x - a.x * b.z, a.x * b.y - a.y * b.x⟩

def Vec3.lengthSq (v : Vec3) : ℝ := v.x * v.x + v.y * v.y + v.z * v.z

noncomputable def Vec3.length (v : Vec3) : ℝ := Real.sqrt v.lengthSq

/-- THREE.Vector3.normalize divides by the length or, when the length is 0, by 1. -/
noncomputable def Vec3.normalize (v : Vec3) : Vec3 :=
  Vec3.smul (1 / (if v.length = 0 then 1 else v.length)) v

lemma Vec3.lengthSq_nonneg (v : Vec3) : 0 ≤ v.lengthSq := by
  unfold Vec3.lengthSq
  nlinarith [mul_self_nonneg v.x, mul_self_nonneg v.y, mul_self_nonneg v.z]

lemma Vec3.length_nonneg (v : Vec3) : 0 ≤ v.length := Real.sqrt_nonneg _

lemma Vec3.lengthSq_eq_zero_iff (v : Vec3) : v.lengthSq = 0 ↔ v = Vec3.zero := by
  unfold Vec3.lengthSq Vec3.zero
  constructor
  · intro h
    have hx : v.x = 0 := by
      nlinarith [mul_self_nonneg v.x, mul_self_nonneg v.y, mul_self_nonneg v.z]
    have hy : v.y = 0 := by
      nlinarith [mul_self_nonneg v.x, mul_self_nonneg v.y, mul_self_nonneg v.z]
    have hz : v.z = 0 := by
      nlinarith [mul_self_nonneg v.x, mul_self_nonneg v.y, mul_self_nonneg v.z]
    ext
    · exact hx
    · exact hy
    · exact hz
  · intro h
    rw [h]; norm_num

lemma Vec3.length_eq_zero_iff (v : Vec3) : v.length = 0 ↔ v = Vec3.zero := by
  unfold Vec3.length
  rw [Real.sqrt_eq_zero (Vec3.lengthSq_nonneg v)]
  exact Vec3.lengthSq_eq_zero_iff v

lemma Vec3.dot_self (v : Vec3) : v.dot v = v.lengthSq := rfl

lemma Vec3.zero_add (v : Vec3) : Vec3.zero.add v = v := by
  unfold Vec3.zero Vec3.add; ext <;> simp

/-- Quaternion with the component order THREE.Quaternion uses. -/
@[ext]
structure Quat where
  x : ℝ
  y : ℝ
  z : ℝ
  w : ℝ

def Quat.identity : Quat := ⟨0, 0, 0, 1⟩

def Quat.lengthSq (q : Quat) : ℝ := q.x * q.x + q.y * q.y + q.z * q.z + q.w * q.w

noncomputable def Quat.length (q : Quat) : ℝ := Real.sqrt q.lengthSq

/-- Hamilton product in the operand order of THREE.Quaternion.multiplyQuaternions. -/
def Quat.mul (a b : Quat) : Quat :=
  ⟨a.x * b.w + a.w * b.x + a.y * b.z - a.z * b.y,
   a.y * b.w + a.w * b.y + a.z * b.x - a.x * b.z,
   a.z * b.w + a.w * b.z + a.x * b.y - a.y * b.x,
   a.w * b.w - a.x * b.x - a.y * b.y - a.z * b.z⟩

def Quat.add (a b : Quat) : Quat := ⟨a.x + b.x, a.y + b.y, a.z + b.z, a.w + b.w⟩

def Quat.smul (k : ℝ) (q : Quat) : Quat := ⟨k * q.x, k * q.y, k * q.z, k * q.w⟩

/-- THREE.Quaternion.normalize: the zero quaternion becomes the identity, any
other quaternion is divided by its length. -/
noncomputable def Quat.normalize (q : Quat) : Quat :=
  if q.length = 0 then Quat.identity else Quat.smul (1 / q.length) q

lemma Quat.lengthSq_nonneg_quat (q : Quat) : 0 ≤ q.lengthSq := by
  unfold Quat.lengthSq
  nlinarith [mul_self_nonneg q.x, mul_self_nonneg q.y, mul_self_nonneg q.z,
    mul_self_nonneg q.w]

lemma Quat.lengthSq_smul (k : ℝ) (q : Quat) :
    (Quat.smul k q).lengthSq = k ^ 2 * q.lengthSq := by
  unfold Quat.smul Quat.lengthSq; ring

lemma Quat.length_identity : Quat.identity.length = 1 := by
  unfold Quat.length Quat.lengthSq Quat.identity
  norm_num

lemma Quat.length_normalize (q : Quat) : (Quat.normalize q).length = 1 := by
  unfold Quat.normalize
  split_ifs with h
  · exact Quat.length_identity
  · have hsq : q.length ^ 2 = q.lengthSq := by
      unfold Quat.length
      exact Real.sq_sqrt (Quat.lengthSq_nonneg_quat q)
    have h1 : (1 / q.length) ^ 2 * q.lengthSq = 1 := by
      rw [← hsq]
      field_simp
    unfold Quat.length at h1 ⊢
    rw [Quat.lengthSq_smul, h1, Real.sqrt_one]

/-! Atmospheric model, from the constants module (src/unnamed/part_002). -/

noncomputable def SEA_LEVEL_TEMP : ℝ := 293.15

noncomputable def SCALE_HEIGHT : ℝ := 8500

/-- Exponential atmosphere: density decays with altitude over the scale height. -/
noncomputable def airDensityAtAltitude (altitude seaLevelDensity : ℝ) : ℝ :=
  seaLevelDensity * Real.exp (-altitude / SCALE_HEIGHT)

/-- Sutherland law for the dynamic viscosity of air. -/
noncomputable def airViscosity (temperature : ℝ) : ℝ :=
  1.827e-5 * Real.rpow (temperature / 291.15) 1.5 * (291.15 + 120) / (temperature + 120)

noncomputable def reynoldsNumber (velocity diameter density viscosity : ℝ) : ℝ :=
  density * velocity * diameter / viscosity

/-- Reynolds-regime drag coefficient for spheres, a five-branch piecewise function. -/
noncomputable def dragCoefficient (re baseCd : ℝ) : ℝ :=
  if re < 1 then 24 / re
  else if re < 1000 then 24 / re * (1 + 0.15 * Real.rpow re 0.687)
  else if re < 300000 then baseCd
  else if re < 500000 then baseCd * (1 - 0.6 * ((re - 300000) / 200000))
  else baseCd * 0.4

/-- Magnus lift coefficient as a function of the spin ratio. -/
noncomputable def magnusLiftCoefficient (spinRatio : ℝ) : ℝ :=
  if spinRatio < 0.1 then 0.5 * spinRatio / 0.1
  else if spinRatio < 0.5 then 0.5
  else 0.5 * Real.exp (-((spinRatio - 0.5) / 0.3))

/-! Data model, from the full ProjectileState of src/unnamed/part_003. -/

structure ProjectileState where
  position : Vec3
  velocity : Vec3
  spin : Vec3
  rotation : Quat
  mass : ℝ
  area : ℝ
  dragCoefficient : ℝ
  spinDamping : ℝ
  restitution : ℝ
  momentOfInertia : Vec3
  radius : ℝ

structure EnvironmentState where
  gravity : ℝ
  windVector : Vec3
  airDensity : ℝ

/-! Force model, from src/src/physics/forces.ts. -/

def gravityForce (s : ProjectileState) (env : EnvironmentState) : Vec3 :=
  ⟨0, -(s.mass * env.gravity), 0⟩

noncomputable def dragForce (s : ProjectileState) (env : EnvironmentState) : Vec3 :=
  let relativeVelocity := s.velocity.sub env.windVector
  let speed := relativeVelocity.length
  if speed = 0 then Vec3.zero
  else
    let altitude := max 0 s.position.y
    let rho := airDensityAtAltitude altitude env.airDensity
    let diameter := s.radius * 2
    let mu := airViscosity SEA_LEVEL_TEMP
    let re := reynoldsNumber speed diameter rho mu
    let cd := dragCoefficient re s.dragCoefficient
    let k := 0.5 * cd * rho * s.area / s.mass
    Vec3.smul (-k * speed) relativeVelocity

noncomputable def magnusForce (s : ProjectileState) (env : EnvironmentState) : Vec3 :=
  let relativeVelocity := s.velocity.sub env.windVector
  if relativeVelocity.lengthSq = 0 ∨ s.spin.lengthSq = 0 then Vec3.zero
  else
    let speed := relativeVelocity.length
    let spinSpeed := s.spin.length
    let altitude := max 0 s.position.y
    let rho := airDensityAtAltitude altitude env.airDensity
    let spinRatio := s.radius * spinSpeed / (speed + 0.01)
    let cl := magnusLiftCoefficient spinRatio
    let clRho := 0.5 * rho * s.area * cl * 3.0
    Vec3.smul (clRho / s.mass) (Vec3.cross s.spin relativeVelocity)

noncomputable def integrateSpin (s : ProjectileState) (dt : ℝ) : ProjectileState :=
  if s.spin.lengthSq = 0 then s
  else
    let spinSpeed := s.spin.length
    let quadraticDamping := s.spinDamping * spinSpeed * dt
    let dampingFactor := 1 / (1 + quadraticDamping)
    { s with spin := Vec3.smul dampingFactor s.spin }

/-- Quaternion integration of orientation from angular velocity, with the
gyroscopic precession nudge, followed by the mandatory renormalization. -/
noncomputable def integrateRotation (s : ProjectileState) (dt : ℝ) : ProjectileState :=
  if s.spin.lengthSq = 0 then s
  else
    let I := s.momentOfInertia
    let inertiaDiff := |I.x - I.y| + |I.y - I.z| + |I.z - I.x|
    let spin1 :=
      if inertiaDiff > 0.001 then
        let precessionRate := 0.1 * inertiaDiff
        let perpendicular := Vec3.normalize
          ⟨s.spin.y - s.spin.z, s.spin.z - s.spin.x, s.spin.x - s.spin.y⟩
        s.spin.add (Vec3.smul (precessionRate * dt) perpendicular)
      else s.spin
    let halfDt := dt * 0.5
    let omega : Quat := ⟨spin1.x * halfDt, spin1.y * halfDt, spin1.z * halfDt, 0⟩
    let dq := Quat.mul omega s.rotation
    { s with spin := spin1, rotation := Quat.normalize (s.rotation.add dq) }

noncomputable def aerodynamicTorque (s : ProjectileState) (env : EnvironmentState) : Vec3 :=
  let relativeVelocity := s.velocity.sub env.windVector
  let speed := relativeVelocity.length
  if speed = 0 ∨ s.spin.lengthSq = 0 then Vec3.zero
  else
    let altitude := max 0 s.position.y
    let rho := airDensityAtAltitude altitude env.airDensity
    let spinSpeed := s.spin.length
    let torqueCoeff := 0.15 * rho * s.radius ^ 3 * spinSpeed
    let dragTorque := Vec3.smul (-torqueCoeff) s.spin
    let vortexAxis := Vec3.normalize (Vec3.cross relativeVelocity s.spin)
    let vortexMagnitude := 0.05 * rho * s.radius ^ 3 * speed
    dragTorque.add (Vec3.smul vortexMagnitude vortexAxis)

/-! RK4 integrator, from src/unnamed/part_005. That module works on the
ProjectileState of src/src/physics/types.ts, whose fields are exactly the
ones cloneState copies, so it gets its own state type here. -/

namespace Integrators

structure ProjectileState where
  position : ProjectileSim.Vec3
  velocity : ProjectileSim.Vec3
  spin : ProjectileSim.Vec3
  mass : ℝ
  area : ℝ
  dragCoefficient : ℝ
  spinDamping : ℝ
  restitution : ℝ

def cloneState (s : ProjectileState) : ProjectileState :=
  { position := s.position, velocity := s.velocity, spin := s.spin,
    mass := s.mass, area := s.area, dragCoefficient := s.dragCoefficient,
    spinDamping := s.spinDamping, restitution := s.restitution }

/-- Embedding of rk4Integrate from src/unnamed/part_005, with the in-place
mutations of the temporary cloned state written as successive values. -/
noncomputable def rk4Integrate (s : ProjectileState) (env : EnvironmentState) (dt : ℝ)
    (accelerationFn : ProjectileState → EnvironmentState → Vec3) : ProjectileState :=
  let k1 := accelerationFn s env
  let vel1 := s.velocity
  let temp2 :=
    { cloneState s with
      position := (cloneState s).position.add (Vec3.smul (dt * 0.5) vel1),
      velocity := (cloneState s).velocity.add (Vec3.smul (dt * 0.5) k1) }
  let k2 := accelerationFn temp2 env
  let vel2 := temp2.velocity
  let temp3 :=
    { temp2 with
      position := s.position.add (Vec3.smul (dt * 0.5) vel2),
      velocity := s.velocity.add (Vec3.smul (dt * 0.5) k2) }
  let k3 := accelerationFn temp3 env
  let vel3 := temp3.velocity
  let temp4 :=
    { temp3 with
      position := s.position.add (Vec3.smul dt vel3),
      velocity := s.velocity.add (Vec3.smul dt k3) }
  let k4 := accelerationFn temp4 env
  let velocityDelta :=
    Vec3.smul (dt / 6) (((k1.add (Vec3.smul 2 k2)).add (Vec3.smul 2 k3)).add k4)
  let positionDelta :=
    Vec3.smul (dt / 6)
      (((vel1.add (Vec3.smul 2 vel2)).add (Vec3.smul 2 vel3)).add temp4.velocity)
  { s with velocity := s.velocity.add velocityDelta,
           position := s.position.add positionDelta }

/-- Written from the spec (section 4.4): the classical four-stage Runge-Kutta
update for the coupled position-velocity system, stated directly, to be
compared with the code embedding above. -/
noncomputable def rk4Classical (s : ProjectileState) (env : EnvironmentState) (dt : ℝ)
    (accelerationFn : ProjectileState → EnvironmentState → Vec3) : ProjectileState :=
  let k1 := accelerationFn s env
  let v1 := s.velocity
  let v2 := v1.add (Vec3.smul (dt / 2) k1)
  let k2 := accelerationFn
    { s with position := s.position.add (Vec3.smul (dt / 2) v1), velocity := v2 } env
  let v3 := v1.add (Vec3.smul (dt / 2) k2)
  let k3 := accelerationFn
    { s with position := s.position.add (Vec3.smul (dt / 2) v2), velocity := v3 } env
  let v4 := v1.add (Vec3.smul dt k3)
  let k4 := accelerationFn
    { s with position := s.position.add (Vec3.smul dt v3), velocity := v4 } env
  { s with
    velocity := s.velocity.add
      (Vec3.smul (dt / 6) (((k1.add (Vec3.smul 2 k2)).add (Vec3.smul 2 k3)).add k4)),
    position := s.position.add
      (Vec3.smul (dt / 6) (((v1.add (Vec3.smul 2 v2)).add (Vec3.smul 2 v3)).add v4)) }

end Integrators

/-- C2: rk4Integrate performs exactly the classical RK4 update on velocity and
position, evaluating the acceleration function at the four classical stage
states, and leaves every other field of the state unchanged. -/
theorem rk4Integrate_matches_classicalRK4 (s : Integrators.ProjectileState)
    (env : EnvironmentState) (dt : ℝ)
    (a : Integrators.ProjectileState → EnvironmentState → Vec3) :
    Integrators.rk4Integrate s env dt a = Integrators.rk4Classical s env dt a ∧
    (Integrators.rk4Integrate s env dt a).spin = s.spin ∧
    (Integrators.rk4Integrate s env dt a).mass = s.mass ∧
    (Integrators.rk4Integrate s env dt a).area = s.area ∧
    (Integrators.rk4Integrate s env dt a).dragCoefficient = s.dragCoefficient ∧
    (Integrators.rk4Integrate s env dt a).spinDamping = s.spinDamping ∧
    (Integrators.rk4Integrate s env dt a).restitution = s.restitution := by
  refine ⟨?_, rfl, rfl, rfl, rfl, rfl, rfl⟩
  have hhalf : ∀ r : ℝ, r * 0.5 = r / 2 := fun r => by ring
  simp only [Integrators.rk4Integrate, Integrators.rk4Classical,
    Integrators.cloneState, hhalf]

/-! Simulation engine, from src/src/physics/simulation.ts (the variant with a
flat ground normal and static restitution). -/

def REST_THRESHOLD : ℝ := 0.15

def TELEMETRY_INTERVAL : ℝ := 0.08

def ROLLING_FRICTION_COEFF : ℝ := 0.02

def GROUND_CONTACT_TOLERANCE : ℝ := 0.005

/-- Total acceleration, summing gravity divided by mass with the drag and
Magnus terms, which the force module already returns as accelerations. -/
noncomputable def totalAcceleration (s : ProjectileState) (env : EnvironmentState) : Vec3 :=
  ((Vec3.zero.add (Vec3.smul (1 / s.mass) (gravityForce s env))).add
    (dragForce s env)).add (magnusForce s env)

/-- RK4 on the full projectile state, as simulation.ts invokes it. The
integrators module simulation.ts imports is not part of the source snapshot;
modelled from the spec (section 4.4): identical staging to the part_005
embedding above, with the intermediate cloned state a complete copy. -/
noncomputable def rk4Integrate (s : ProjectileState) (env : EnvironmentState) (dt : ℝ)
    (accelerationFn : ProjectileState → EnvironmentState → Vec3) : ProjectileState :=
  let k1 := accelerationFn s env
  let vel1 := s.velocity
  let temp2 :=
    { s with position := s.position.add (Vec3.smul (dt * 0.5) vel1),
             velocity := s.velocity.add (Vec3.smul (dt * 0.5) k1) }
  let k2 := accelerationFn temp2 env
  let vel2 := temp2.velocity
  let temp3 :=
    { temp2 with position := s.position.add (Vec3.smul (dt * 0.5) vel2),
                 velocity := s.velocity.add (Vec3.smul (dt * 0.5) k2) }
  let k3 := accelerationFn temp3 env
  let vel3 := temp3.velocity
  let temp4 :=
    { temp3 with position := s.position.add (Vec3.smul dt vel3),
                 velocity := s.velocity.add (Vec3.smul dt k3) }
  let k4 := accelerationFn temp4 env
  let velocityDelta :=
    Vec3.smul (dt / 6) (((k1.add (Vec3.smul 2 k2)).add (Vec3.smul 2 k3)).add k4)
  let positionDelta :=
    Vec3.smul (dt / 6)
      (((vel1.add (Vec3.smul 2 vel2)).add (Vec3.smul 2 vel3)).add temp4.velocity)
  { s with velocity := s.velocity.add velocityDelta,
           position := s.position.add positionDelta }

/-- Rolling-contact model applied while grounded. The rolling friction vector
is scaled in place by 1/mass in the source (multiplyScalar mutates), so the
torque below is computed from the already-scaled vector, as in the code. -/
noncomputable def applyGroundContactForces (s0 : ProjectileState)
    (env : EnvironmentState) (dt : ℝ) : ProjectileState :=
  let s := { s0 with position := { s0.position with y := s0.radius } }
  let v0 := if s.velocity.y < 0 then { s.velocity with y := 0 } else s.velocity
  let normal : Vec3 := ⟨0, 1, 0⟩
  let contactOffset := Vec3.smul (-s.radius) normal
  let rotationalVel := Vec3.cross s.spin contactOffset
  let contactVel := v0.add rotationalVel
  let horizontalVel : Vec3 := ⟨contactVel.x, 0, contactVel.z⟩
  let speed := horizontalVel.length
  let afterFriction :=
    if speed > 0.01 then
      let normalForce := s.mass * env.gravity
      let rollingFriction :=
        Vec3.smul (-ROLLING_FRICTION_COEFF * normalForce) (Vec3.normalize horizontalVel)
      let frictionAccel := Vec3.smul (1 / s.mass) rollingFriction
      let v1 := v0.add (Vec3.smul dt frictionAccel)
      let rollingTorque := Vec3.cross contactOffset frictionAccel
      let angularDecel : Vec3 :=
        ⟨rollingTorque.x / s.momentOfInertia.x, rollingTorque.y / s.momentOfInertia.y,
         rollingTorque.z / s.momentOfInertia.z⟩
      (v1, s.spin.add (Vec3.smul dt angularDecel))
    else (v0, s.spin)
  let dampingFactor := Real.exp (-2.0 * dt)
  let final :=
    if speed < 0.5 then
      (⟨afterFriction.1.x * dampingFactor, afterFriction.1.y,
        afterFriction.1.z * dampingFactor⟩,
       Vec3.smul dampingFactor afterFriction.2)
    else afterFriction
  { s with velocity := final.1, spin := final.2 }

/-- Impulse-based ground collision response with restitution and Coulomb
friction, against the flat ground normal. -/
noncomputable def handleGroundCollision (s : ProjectileState) : ProjectileState :=
  let normal : Vec3 := ⟨0, 1, 0⟩
  let contactOffset := Vec3.smul (-s.radius) normal
  let rotationalVel := Vec3.cross s.spin contactOffset
  let contactVel := s.velocity.add rotationalVel
  let vn := contactVel.dot normal
  if vn ≥ -0.01 then { s with position := { s.position with y := s.radius } }
  else
    let normalVel := Vec3.smul vn normal
    let tangentialVel := contactVel.sub normalVel
    let tangentialSpeed := tangentialVel.length
    let rCrossN := Vec3.cross contactOffset normal
    let angularEffect : Vec3 :=
      ⟨rCrossN.x / s.momentOfInertia.x, rCrossN.y / s.momentOfInertia.y,
       rCrossN.z / s.momentOfInertia.z⟩
    let rCrossAngular := Vec3.cross contactOffset angularEffect
    let denominator := 1 / s.mass + rCrossAngular.dot normal
    let jn := -(1 + s.restitution) * vn / denominator
    let frictionCoeff : ℝ := 0.6
    let maxFriction := frictionCoeff * |jn|
    let jt :=
      if tangentialSpeed > 0.01 then
        let tangentDir := Vec3.normalize tangentialVel
        let rCrossT := Vec3.cross contactOffset tangentDir
        let angularEffectT : Vec3 :=
          ⟨rCrossT.x / s.momentOfInertia.x, rCrossT.y / s.momentOfInertia.y,
           rCrossT.z / s.momentOfInertia.z⟩
        let rCrossAngularT := Vec3.cross contactOffset angularEffectT
        let denominatorT := 1 / s.mass + rCrossAngularT.dot tangentDir
        max (-maxFriction) (min maxFriction (-tangentialSpeed / denominatorT))
      else 0
    let normalImpulse := Vec3.smul jn normal
    let v1 := s.velocity.add (Vec3.smul (1 / s.mass) normalImpulse)
    let normalTorque := Vec3.cross contactOffset normalImpulse
    let spin1 := s.spin.add
      ⟨normalTorque.x / s.momentOfInertia.x, normalTorque.y / s.momentOfInertia.y,
       normalTorque.z / s.momentOfInertia.z⟩
    let final :=
      if tangentialSpeed > 0.01 then
        let tangentDir := Vec3.normalize tangentialVel
        let frictionImpulse := Vec3.smul jt tangentDir
        let v2 := v1.add (Vec3.smul (1 / s.mass) frictionImpulse)
        let frictionTorque := Vec3.cross contactOffset frictionImpulse
        (v2, spin1.add
          ⟨frictionTorque.x / s.momentOfInertia.x, frictionTorque.y / s.momentOfInertia.y,
           frictionTorque.z / s.momentOfInertia.z⟩)
      else (v1, spin1)
    { s with velocity := final.1, spin := final.2,
             position := { s.position with y := s.radius } }

/-- Per-launch force profile data, the fields of the catalog ForceProfile the
integration step reads. -/
structure ForceProfile where
  duration : ℝ
  impulse : ℝ → Vec3
  spinAxis : Vec3
  spinRate : ℝ

structure TelemetrySample where
  time : ℝ
  altitude : ℝ
  range : ℝ
  speed : ℝ
  velocityX : ℝ
  velocityY : ℝ
  velocityZ : ℝ

structure LaunchSummary where
  maxHeight : ℝ
  totalRange : ℝ
  flightTime : ℝ
  impactSpeed : ℝ

/-- The physics-relevant fields of a ProjectileInstance; the rendering handles
(mesh, trail, colors) are out of the core per the spec and are omitted. -/
structure ProjectileInstance where
  state : ProjectileState
  environment : EnvironmentState
  profile : ForceProfile
  elapsed : ℝ
  telemetryTimer : ℝ
  samples : List TelemetrySample
  summary : Option LaunchSummary
  isGrounded : Bool
  active : Bool

noncomputable def buildSummary (p : ProjectileInstance) : LaunchSummary :=
  { maxHeight := p.samples.foldl (fun m sample => max m sample.altitude) 0,
    totalRange := p.samples.foldl (fun m sample => max m sample.range) 0,
    flightTime :=
      match p.samples.getLast? with
      | some sample => sample.time
      | none => p.elapsed,
    impactSpeed := p.state.velocity.length }

/-- The sinking-prevention clamp that runs after integration. -/
noncomputable def clampToGround (s : ProjectileState) : ProjectileState :=
  if s.position.y < s.radius then { s with position := { s.position with y := s.radius } }
  else s

/-- The collision branch together with the rest-detection that retires the
projectile. Returns the new state and the new active flag. -/
noncomputable def resolveCollision (s : ProjectileState) (active : Bool) :
    ProjectileState × Bool :=
  if s.position.y ≤ s.radius ∧ s.velocity.y < -0.1 then
    let sc := handleGroundCollision s
    (sc,
      if |sc.velocity.y| < REST_THRESHOLD ∧ sc.velocity.length < REST_THRESHOLD then false
      else active)
  else (s, active)

/-- One engine sub-step on one projectile instance, from
SimulationEngine.integrateProjectile in src/src/physics/simulation.ts. -/
noncomputable def integrateProjectile (p : ProjectileInstance) (dt : ℝ) :
    ProjectileInstance :=
  if p.active = false then p
  else
    let elapsed := p.elapsed + dt
    let telemetryTimer := p.telemetryTimer + dt
    let st1 :=
      if elapsed ≤ p.profile.duration then
        let force := p.profile.impulse elapsed
        let v :=
          if force.lengthSq > 0 then
            p.state.velocity.add (Vec3.smul dt (Vec3.smul (1 / p.state.mass) force))
          else p.state.velocity
        { p.state with velocity := v,
                       spin := p.state.spin.add
                         (Vec3.smul (p.profile.spinRate * dt) p.profile.spinAxis) }
      else p.state
    let groundDistance := st1.position.y - st1.radius
    let isGrounded := groundDistance ≤ GROUND_CONTACT_TOLERANCE
    let st2 :=
      if isGrounded ∧ st1.velocity.y ≤ 0.1 then applyGroundContactForces st1 p.environment dt
      else st1
    let st3 := rk4Integrate st2 p.environment dt totalAcceleration
    let torque := aerodynamicTorque st3 p.environment
    let angularAccel : Vec3 :=
      ⟨torque.x / st3.momentOfInertia.x, torque.y / st3.momentOfInertia.y,
       torque.z / st3.momentOfInertia.z⟩
    let st4 := { st3 with spin := st3.spin.add (Vec3.smul dt angularAccel) }
    let st5 := integrateSpin st4 dt
    let st6 := integrateRotation st5 dt
    let st7 := clampToGround st6
    let res := resolveCollision st7 p.active
    let summary1 :=
      if res.2 = false then
        some (buildSummary { p with state := res.1, elapsed := elapsed })
      else p.summary
    let samples1 :=
      if telemetryTimer ≥ TELEMETRY_INTERVAL then
        p.samples ++
          [{ time := elapsed, altitude := res.1.position.y,
             range := Real.sqrt (res.1.position.x * res.1.position.x +
               res.1.position.z * res.1.position.z),
             speed := res.1.velocity.length,
             velocityX := res.1.velocity.x, velocityY := res.1.velocity.y,
             velocityZ := res.1.velocity.z }]
      else p.samples
    let telemetryTimer1 := if telemetryTimer ≥ TELEMETRY_INTERVAL then 0 else telemetryTimer
    { state := res.1, environment := p.environment, profile := p.profile,
      elapsed := elapsed, telemetryTimer := telemetryTimer1, samples := samples1,
      summary := summary1,
      isGrounded := if isGrounded then true else false, active := res.2 }

/-! Velocity-dependent restitution, from the collision resolver variant in
src/unnamed/part_004 (handleGroundCollision, lines around 424-438). -/

/-- Effective restitution with velocity-dependent energy dissipation: the base
restitution scaled by exp of minus the impact speed over 20. -/
noncomputable def effectiveRestitution (restitution vn : ℝ) : ℝ :=
  restitution * Real.exp (-(|vn|) / 20.0)

/-! Turbulence field, from the turbulence module appended to
src/src/physics/simulation.ts. The source draws its three generator seeds
from Math.random() in the constructor; the draws are passed explicitly here. -/

noncomputable def TURBULENCE_INTENSITY : ℝ := 0.15

noncomputable def TURBULENCE_SCALE : ℝ := 10.0

/-- JavaScript truncation toward zero, as a real. -/
noncomputable def jsTrunc (x : ℝ) : ℝ := if 0 ≤ x then (⌊x⌋ : ℝ) else (⌈x⌉ : ℝ)

/-- The JavaScript remainder operator on finite numbers. -/
noncomputable def jsMod (a b : ℝ) : ℝ := a - b * jsTrunc (a / b)

structure SimplexNoise where
  seed : ℝ

noncomputable def SimplexNoise.hash (n : SimplexNoise) (x y z t : ℝ) : ℝ :=
  let h := Real.sin (n.seed + x * 374761393 + y * 668265263 + z * 1274126177 +
    t * 1138340171) * 43758.5453
  h - (⌊h⌋ : ℝ)

def SimplexNoise.lerp (a b t : ℝ) : ℝ := a + (b - a) * t

def SimplexNoise.smoothstep (t : ℝ) : ℝ := t * t * (3 - 2 * t)

noncomputable def SimplexNoise.noise4D (n : SimplexNoise) (x y z t : ℝ) : ℝ :=
  let xi : ℝ := (⌊x⌋ : ℝ)
  let yi : ℝ := (⌊y⌋ : ℝ)
  let zi : ℝ := (⌊z⌋ : ℝ)
  let ti : ℝ := (⌊t⌋ : ℝ)
  let u := SimplexNoise.smoothstep (x - xi)
  let v := SimplexNoise.smoothstep (y - yi)
  let w := SimplexNoise.smoothstep (z - zi)
  let sse := SimplexNoise.smoothstep (t - ti)
  let n0000 := n.hash xi yi zi ti
  let n1000 := n.hash (xi + 1) yi zi ti
  let n0100 := n.hash xi (yi + 1) zi ti
  let n1100 := n.hash (xi + 1) (yi + 1) zi ti
  let n0010 := n.hash xi yi (zi + 1) ti
  let n1010 := n.hash (xi + 1) yi (zi + 1) ti
  let n0110 := n.hash xi (yi + 1) (zi + 1) ti
  let n1110 := n.hash (xi + 1) (yi + 1) (zi + 1) ti
  let n0001 := n.hash xi yi zi (ti + 1)
  let n1001 := n.hash (xi + 1) yi zi (ti + 1)
  let n0101 := n.hash xi (yi + 1) zi (ti + 1)
  let n1101 := n.hash (xi + 1) (yi + 1) zi (ti + 1)
  let n0011 := n.hash xi yi (zi + 1) (ti + 1)
  let n1011 := n.hash (xi + 1) yi (zi + 1) (ti + 1)
  let n0111 := n.hash xi (yi + 1) (zi + 1) (ti + 1)
  let n1111 := n.hash (xi + 1) (yi + 1) (zi + 1) (ti + 1)
  let x000 := SimplexNoise.lerp n0000 n1000 u
  let x100 := SimplexNoise.lerp n0100 n1100 u
  let x010 := SimplexNoise.lerp n0010 n1010 u
  let x110 := SimplexNoise.lerp n0110 n1110 u
  let x001 := SimplexNoise.lerp n0001 n1001 u
  let x101 := SimplexNoise.lerp n0101 n1101 u
  let x011 := SimplexNoise.lerp n0011 n1011 u
  let x111 := SimplexNoise.lerp n0111 n1111 u
  let y00 := SimplexNoise.lerp x000 x100 v
  let y10 := SimplexNoise.lerp x010 x110 v
  let y01 := SimplexNoise.lerp x001 x101 v
  let y11 := SimplexNoise.lerp x011 x111 v
  let z0 := SimplexNoise.lerp y00 y10 w
  let z1 := SimplexNoise.lerp y01 y11 w
  SimplexNoise.lerp z0 z1 sse * 2 - 1

structure TurbulenceField where
  noiseX : SimplexNoise
  noiseY : SimplexNoise
  noiseZ : SimplexNoise
  time : ℝ

/-- Construction with the three Math.random() draws made explicit; the time
accumulator starts at zero. -/
def TurbulenceField.create (sx sy sz : ℝ) : TurbulenceField :=
  { noiseX := ⟨sx⟩, noiseY := ⟨sy⟩, noiseZ := ⟨sz⟩, time := 0 }

def TurbulenceField.update (f : TurbulenceField) (dt : ℝ) : TurbulenceField :=
  { f with time := f.time + dt * 0.5 }

noncomputable def TurbulenceField.getTurbulence (f : TurbulenceField)
    (position baseWind : Vec3) : Vec3 :=
  let x := position.x / TURBULENCE_SCALE
  let y := position.y / TURBULENCE_SCALE
  let z := position.z / TURBULENCE_SCALE
  let t := f.time
  let turbX := f.noiseX.noise4D x y z t * 1.0 +
    f.noiseX.noise4D (x * 2) (y * 2) (z * 2) (t * 2) * 0.5 +
    f.noiseX.noise4D (x * 4) (y * 4) (z * 4) (t * 4) * 0.25
  let turbY := f.noiseY.noise4D x y z t * 1.0 +
    f.noiseY.noise4D (x * 2) (y * 2) (z * 2) (t * 2) * 0.5 +
    f.noiseY.noise4D (x * 4) (y * 4) (z * 4) (t * 4) * 0.25
  let turbZ := f.noiseZ.noise4D x y z t * 1.0 +
    f.noiseZ.noise4D (x * 2) (y * 2) (z * 2) (t * 2) * 0.5 +
    f.noiseZ.noise4D (x * 4) (y * 4) (z * 4) (t * 4) * 0.25
  let groundEffect := min 1.0 (position.y / 10.0)
  let baseSpeed := baseWind.length
  let turbulence : Vec3 :=
    ⟨turbX * baseSpeed * TURBULENCE_INTENSITY,
     turbY * baseSpeed * TURBULENCE_INTENSITY * 0.5,
     turbZ * baseSpeed * TURBULENCE_INTENSITY⟩
  (Vec3.smul groundEffect baseWind).add turbulence

noncomputable def TurbulenceField.addGust (_f : TurbulenceField) (position : Vec3)
    (time : ℝ) : Vec3 :=
  let gustPeriod : ℝ := 20.0
  let gustPhase := jsMod time gustPeriod / gustPeriod
  let gustStrength := Real.exp (-((gustPhase - 0.5) * 4) ^ 2)
  let gustAngle := Real.sin (position.x * 0.1 + time * 0.3) * Real.pi
  let gustDir : Vec3 := ⟨Real.cos gustAngle, 0, Real.sin gustAngle⟩
  Vec3.smul (gustStrength * 5.0) gustDir

/-! Reference definitions written from the spec (section 4.3), used to state
the force-versus-acceleration convention claims. -/

/-- Written from the spec: raw gravitational force, mass times gravity,
pointing down. -/
def specGravityForce (s : ProjectileState) (env : EnvironmentState) : Vec3 :=
  ⟨0, -(s.mass * env.gravity), 0⟩

/-- Written from the spec: gravitational acceleration, mass-independent. -/
def specGravityAccel (_s : ProjectileState) (env : EnvironmentState) : Vec3 :=
  ⟨0, -env.gravity, 0⟩

/-- Written from the spec: quadratic drag acceleration, the raw drag force
divided by mass, with the zero-speed guard. -/
noncomputable def specDragAccel (s : ProjectileState) (env : EnvironmentState) : Vec3 :=
  let rel := s.velocity.sub env.windVector
  if rel.length = 0 then Vec3.zero
  else
    let rho := airDensityAtAltitude (max 0 s.position.y) env.airDensity
    let re := reynoldsNumber rel.length (s.radius * 2) rho (airViscosity SEA_LEVEL_TEMP)
    Vec3.smul
      (-(0.5 * dragCoefficient re s.dragCoefficient * rho * s.area / s.mass * rel.length))
      rel

/-- Written from the spec: quadratic drag as a raw force, without the
division by mass. -/
noncomputable def specDragForce (s : ProjectileState) (env : EnvironmentState) : Vec3 :=
  let rel := s.velocity.sub env.windVector
  if rel.length = 0 then Vec3.zero
  else
    let rho := airDensityAtAltitude (max 0 s.position.y) env.airDensity
    let re := reynoldsNumber rel.length (s.radius * 2) rho (airViscosity SEA_LEVEL_TEMP)
    Vec3.smul
      (-(0.5 * dragCoefficient re s.dragCoefficient * rho * s.area * rel.length)) rel

/-- Written from the spec: Magnus acceleration, with the visibility multiplier
3.0 the implementation documents, divided by mass. -/
noncomputable def specMagnusAccel (s : ProjectileState) (env : EnvironmentState) : Vec3 :=
  let rel := s.velocity.sub env.windVector
  if rel.lengthSq = 0 ∨ s.spin.lengthSq = 0 then Vec3.zero
  else
    let rho := airDensityAtAltitude (max 0 s.position.y) env.airDensity
    let spinRatio := s.radius * s.spin.length / (rel.length + 0.01)
    let cl := magnusLiftCoefficient spinRatio
    Vec3.smul (0.5 * rho * s.area * cl * 3.0 / s.mass) (Vec3.cross s.spin rel)

/-- Written from the spec: Magnus force as a raw force, without the division
by mass. -/
noncomputable def specMagnusForce (s : ProjectileState) (env : EnvironmentState) : Vec3 :=
  let rel := s.velocity.sub env.windVector
  if rel.lengthSq = 0 ∨ s.spin.lengthSq = 0 then Vec3.zero
  else
    let rho := airDensityAtAltitude (max 0 s.position.y) env.airDensity
    let spinRatio := s.radius * s.spin.length / (rel.length + 0.01)
    let cl := magnusLiftCoefficient spinRatio
    Vec3.smul (0.5 * rho * s.area * cl * 3.0) (Vec3.cross s.spin rel)

/-- The claim that every force-model function consumed by the integrator
returns a raw force. -/
def FollowsForceConvention : Prop :=
  ∀ (s : ProjectileState) (env : EnvironmentState),
    gravityForce s env = specGravityForce s env ∧
    dragForce s env = specDragForce s env ∧
    magnusForce s env = specMagnusForce s env

/-- The claim that every force-model function consumed by the integrator
returns a pre-divided acceleration. -/
def FollowsAccelConvention : Prop :=
  ∀ (s : ProjectileState) (env : EnvironmentState),
    gravityForce s env = specGravityAccel s env ∧
    dragForce s env = specDragAccel s env ∧
    magnusForce s env = specMagnusAccel s env

/-! Theorems. -/

lemma integrateRotation_unit_step (s : ProjectileState) (dt : ℝ)
    (h : s.rotation.length = 1) : ((integrateRotation s dt).rotation).length = 1 := by
  unfold integrateRotation
  split_ifs with hs
  · exact h
  · exact Quat.length_normalize _

/-- C5: starting from any state whose rotation quaternion has unit norm, after
any sequence of integrateRotation calls, with arbitrary spins and steps along
the way, the rotation quaternion still has unit norm. -/
theorem integrateRotation_unit_norm_invariant (s0 : ProjectileState) (dts : List ℝ)
    (h : s0.rotation.length = 1) :
    ((dts.foldl (fun s dt => integrateRotation s dt) s0).rotation).length = 1 := by
  induction dts generalizing s0 with
  | nil => simpa using h
  | cons d rest ih =>
      simp only [List.foldl_cons]
      exact ih _ (integrateRotation_unit_step s0 d h)

/-- Witness for C5 at a concrete state with the identity rotation and one step. -/
theorem integrateRotation_unit_norm_invariant_witness :
    ((([0.016] : List ℝ).foldl (fun s dt => integrateRotation s dt)
      { position := ⟨0, 1.2, 0⟩, velocity := ⟨4, 3, 0⟩, spin := ⟨0, 0, 90⟩,
        rotation := Quat.identity, mass := 0.45, area := 0.038,
        dragCoefficient := 0.32, spinDamping := 0.12, restitution := 0.55,
        momentOfInertia := ⟨0.002, 0.002, 0.002⟩,
        radius := 0.11 }).rotation).length = 1 :=
  integrateRotation_unit_norm_invariant _ _ Quat.length_identity

/-- C7: magnusForce returns the zero vector whenever the relative velocity or
the spin vector is zero; in particular a projectile with nonzero spin at
exactly zero relative velocity has zero Magnus acceleration. -/
theorem magnusForce_zero_guard (s : ProjectileState) (env : EnvironmentState)
    (h : s.velocity.sub env.windVector = Vec3.zero ∨ s.spin = Vec3.zero) :
    magnusForce s env = Vec3.zero := by
  have hc : (s.velocity.sub env.windVector).lengthSq = 0 ∨ s.spin.lengthSq = 0 := by
    rcases h with h | h
    · left; rw [h]; simp [Vec3.lengthSq, Vec3.zero]
    · right; rw [h]; simp [Vec3.lengthSq, Vec3.zero]
  simp only [magnusForce]
  rw [if_pos hc]

/-- Witness for C7: nonzero spin, velocity exactly matching the wind. -/
theorem magnusForce_zero_guard_witness :
    magnusForce
      { position := ⟨0, 2, 0⟩, velocity := ⟨3, 0, 0⟩, spin := ⟨0, 0, 5⟩,
        rotation := Quat.identity, mass := 1, area := 1, dragCoefficient := 0.47,
        spinDamping := 0.1, restitution := 0.5, momentOfInertia := ⟨1, 1, 1⟩,
        radius := 0.1 }
      { gravity := 9.81, windVector := ⟨3, 0, 0⟩, airDensity := 1.2041 } = Vec3.zero :=
  magnusForce_zero_guard _ _ (Or.inl (by ext <;> simp [Vec3.sub, Vec3.zero]))

/-- C8: the velocity-dependent effective restitution is monotonically
non-increasing in the impact speed, never exceeds the base restitution, and is
strictly below 1 for every positive impact speed, for any base restitution
between 0 and 1. -/
theorem effectiveRestitution_bounded (e : ℝ) (he0 : 0 ≤ e) (he1 : e ≤ 1) :
    (∀ v1 v2 : ℝ, 0 ≤ v1 → v1 ≤ v2 →
      effectiveRestitution e v2 ≤ effectiveRestitution e v1) ∧
    (∀ v : ℝ, effectiveRestitution e v ≤ e) ∧
    (∀ v : ℝ, 0 < v → effectiveRestitution e v < 1) := by
  refine ⟨?_, ?_, ?_⟩
  · intro v1 v2 h1 h12
    unfold effectiveRestitution
    have habs : |v1| ≤ |v2| := by
      rw [abs_of_nonneg h1, abs_of_nonneg (le_trans h1 h12)]
      exact h12
    have hexp : Real.exp (-(|v2|) / 20.0) ≤ Real.exp (-(|v1|) / 20.0) := by
      apply Real.exp_le_exp.mpr
      linarith
    exact mul_le_mul_of_nonneg_left hexp he0
  · intro v
    unfold effectiveRestitution
    have h0 : 0 ≤ |v| := abs_nonneg v
    have h1 : Real.exp (-(|v|) / 20.0) ≤ 1 := by
      rw [show (1 : ℝ) = Real.exp 0 by rw [Real.exp_zero]]
      apply Real.exp_le_exp.mpr
      linarith
    nlinarith [Real.exp_pos (-(|v|) / (20.0 : ℝ))]
  · intro v hv
    unfold effectiveRestitution
    have h0 : 0 < |v| := abs_pos.mpr (ne_of_gt hv)
    have h1 : Real.exp (-(|v|) / 20.0) < 1 := by
      rw [show (1 : ℝ) = Real.exp 0 by rw [Real.exp_zero]]
      apply Real.exp_lt_exp.mpr
      linarith
    nlinarith [Real.exp_pos (-(|v|) / (20.0 : ℝ))]

/-- Witness for C8 at base restitution one half. -/
theorem effectiveRestitution_bounded_witness :
    (∀ v1 v2 : ℝ, 0 ≤ v1 → v1 ≤ v2 →
      effectiveRestitution 0.5 v2 ≤ effectiveRestitution 0.5 v1) ∧
    (∀ v : ℝ, effectiveRestitution 0.5 v ≤ 0.5) ∧
    (∀ v : ℝ, 0 < v → effectiveRestitution 0.5 v < 1) :=
  effectiveRestitution_bounded 0.5 (by norm_num) (by norm_num)

/-- C9: turbulence output is a pure function of the generator seeds, the
accumulated time and the queried position: two fields created with equal seed
triples give identical getTurbulence and addGust results after the same
sequence of update calls. -/
theorem turbulenceField_deterministic (sx1 sy1 sz1 sx2 sy2 sz2 : ℝ)
    (dts : List ℝ) (pos baseWind : Vec3) (tg : ℝ)
    (hx : sx1 = sx2) (hy : sy1 = sy2) (hz : sz1 = sz2) :
    (List.foldl TurbulenceField.update (TurbulenceField.create sx1 sy1 sz1)
        dts).getTurbulence pos baseWind =
      (List.foldl TurbulenceField.update (TurbulenceField.create sx2 sy2 sz2)
        dts).getTurbulence pos baseWind ∧
    (List.foldl TurbulenceField.update (TurbulenceField.create sx1 sy1 sz1)
        dts).addGust pos tg =
      (List.foldl TurbulenceField.update (TurbulenceField.create sx2 sy2 sz2)
        dts).addGust pos tg := by
  subst hx
  subst hy
  subst hz
  exact ⟨rfl, rfl⟩

/-- Witness for C9 at concrete seeds, one update step and one query point. -/
theorem turbulenceField_deterministic_witness :
    (List.foldl TurbulenceField.update (TurbulenceField.create 0.42 0.17 0.93)
        [0.016]).getTurbulence ⟨1, 2, 3⟩ ⟨4, 0, 2⟩ =
      (List.foldl TurbulenceField.update (TurbulenceField.create 0.42 0.17 0.93)
        [0.016]).getTurbulence ⟨1, 2, 3⟩ ⟨4, 0, 2⟩ ∧
    (List.foldl TurbulenceField.update (TurbulenceField.create 0.42 0.17 0.93)
        [0.016]).addGust ⟨1, 2, 3⟩ 7 =
      (List.foldl TurbulenceField.update (TurbulenceField.create 0.42 0.17 0.93)
        [0.016]).addGust ⟨1, 2, 3⟩ 7 :=
  turbulenceField_deterministic 0.42 0.17 0.93 0.42 0.17 0.93 [0.016] ⟨1, 2, 3⟩
    ⟨4, 0, 2⟩ 7 rfl rfl rfl

lemma airViscosity_sea_level_pos : 0 < airViscosity SEA_LEVEL_TEMP := by
  unfold airViscosity SEA_LEVEL_TEMP
  have h1 : 0 < Real.rpow (293.15 / 291.15) 1.5 :=
    Real.rpow_pos_of_pos (by norm_num) _
  have h2 : (0 : ℝ) < 1.827e-5 * Real.rpow (293.15 / 291.15) 1.5 * (291.15 + 120) := by
    apply mul_pos (mul_pos (by norm_num) h1) (by norm_num)
  exact div_pos h2 (by norm_num)

lemma dragCoefficient_nonneg (re baseCd : ℝ) (hre : 0 ≤ re) (hb : 0 ≤ baseCd) :
    0 ≤ dragCoefficient re baseCd := by
  unfold dragCoefficient
  split_ifs with h1 h2 h3 h4
  · exact div_nonneg (by norm_num) hre
  · have hp : 0 ≤ Real.rpow re 0.687 := Real.rpow_nonneg hre _
    have hd : (0 : ℝ) ≤ 24 / re := div_nonneg (by norm_num) hre
    nlinarith
  · exact hb
  · have ht : (re - 300000) / 200000 < 1 := by
      rw [div_lt_one (by norm_num)]
      push_neg at h3
      linarith
    have ht0 : 0 ≤ (re - 300000) / 200000 := by
      apply div_nonneg _ (by norm_num)
      push_neg at h3
      linarith
    nlinarith
  · nlinarith

lemma dragForce_eq_specDragAccel (s : ProjectileState) (env : EnvironmentState) :
    dragForce s env = specDragAccel s env := by
  simp only [dragForce, specDragAccel]
  by_cases h0 : (s.velocity.sub env.windVector).length = 0
  · rw [if_pos h0, if_pos h0]
  · rw [if_neg h0, if_neg h0]
    congr 1
    ring

/-- C3: dragForce returns zero exactly at zero relative speed and otherwise the
quadratic-drag acceleration built from the altitude-adjusted density and
regime-adjusted drag coefficient; its inner product with the relative velocity
is never positive, so it always opposes the relative motion. -/
theorem dragForce_quadratic_opposing (s : ProjectileState) (env : EnvironmentState)
    (hm : 0 < s.mass) (ha : 0 ≤ s.area) (hcd : 0 ≤ s.dragCoefficient)
    (hρ : 0 ≤ env.airDensity) (hr : 0 ≤ s.radius) :
    ((s.velocity.sub env.windVector).length = 0 → dragForce s env = Vec3.zero) ∧
    dragForce s env = specDragAccel s env ∧
    Vec3.dot (dragForce s env) (s.velocity.sub env.windVector) ≤ 0 := by
  refine ⟨?_, dragForce_eq_specDragAccel s env, ?_⟩
  · intro h0
    simp only [dragForce]
    rw [if_pos h0]
  · by_cases h0 : (s.velocity.sub env.windVector).length = 0
    · simp only [dragForce]
      rw [if_pos h0]
      simp [Vec3.dot, Vec3.zero]
    · simp only [dragForce]
      rw [if_neg h0]
      have hdot : ∀ (c : ℝ) (v : Vec3), Vec3.dot (Vec3.smul c v) v = c * v.lengthSq := by
        intro c v
        unfold Vec3.dot Vec3.smul Vec3.lengthSq
        ring
      rw [hdot]
      have hspeed : 0 ≤ (s.velocity.sub env.windVector).length := Vec3.length_nonneg _
      have hrho : 0 ≤ airDensityAtAltitude (max 0 s.position.y) env.airDensity := by
        unfold airDensityAtAltitude
        exact mul_nonneg hρ (le_of_lt (Real.exp_pos _))
      have hre : 0 ≤ reynoldsNumber ((s.velocity.sub env.windVector).length)
          (s.radius * 2) (airDensityAtAltitude (max 0 s.position.y) env.airDensity)
          (airViscosity SEA_LEVEL_TEMP) := by
        unfold reynoldsNumber
        apply div_nonneg _ (le_of_lt airViscosity_sea_level_pos)
        apply mul_nonneg (mul_nonneg hrho hspeed)
        linarith
      have hcd2 : 0 ≤ dragCoefficient
          (reynoldsNumber ((s.velocity.sub env.windVector).length) (s.radius * 2)
            (airDensityAtAltitude (max 0 s.position.y) env.airDensity)
            (airViscosity SEA_LEVEL_TEMP)) s.dragCoefficient :=
        dragCoefficient_nonneg _ _ hre hcd
      have hL : 0 ≤ (s.velocity.sub env.windVector).lengthSq := Vec3.lengthSq_nonneg _
      have hk : 0 ≤ 0.5 * dragCoefficient
          (reynoldsNumber ((s.velocity.sub env.windVector).length) (s.radius * 2)
            (airDensityAtAltitude (max 0 s.position.y) env.airDensity)
            (airViscosity SEA_LEVEL_TEMP)) s.dragCoefficient *
          airDensityAtAltitude (max 0 s.position.y) env.airDensity * s.area / s.mass := by
        apply div_nonneg _ (le_of_lt hm)
        apply mul_nonneg (mul_nonneg (mul_nonneg (by norm_num) hcd2) hrho) ha
      nlinarith [mul_nonneg (mul_nonneg hk hspeed) hL]

/-- Witness for C3 at a concrete slow-moving sphere in still air. -/
theorem dragForce_quadratic_opposing_witness :
    ((({ position := ⟨0, 0, 0⟩, velocity := ⟨10, 0, 0⟩, spin := ⟨0, 0, 0⟩,
          rotation := Quat.identity, mass := 1, area := 1, dragCoefficient := 0.47,
          spinDamping := 0.1, restitution := 0.5, momentOfInertia := ⟨1, 1, 1⟩,
          radius := 0.1 } : ProjectileState).velocity.sub
        ({ gravity := 9.81, windVector := ⟨0, 0, 0⟩,
           airDensity := 1.2041 } : EnvironmentState).windVector).length = 0 →
      dragForce
        { position := ⟨0, 0, 0⟩, velocity := ⟨10, 0, 0⟩, spin := ⟨0, 0, 0⟩,
          rotation := Quat.identity, mass := 1, area := 1, dragCoefficient := 0.47,
          spinDamping := 0.1, restitution := 0.5, momentOfInertia := ⟨1, 1, 1⟩,
          radius := 0.1 }
        { gravity := 9.81, windVector := ⟨0, 0, 0⟩, airDensity := 1.2041 } = Vec3.zero) ∧
    dragForce
        { position := ⟨0, 0, 0⟩, velocity := ⟨10, 0, 0⟩, spin := ⟨0, 0, 0⟩,
          rotation := Quat.identity, mass := 1, area := 1, dragCoefficient := 0.47,
          spinDamping := 0.1, restitution := 0.5, momentOfInertia := ⟨1, 1, 1⟩,
          radius := 0.1 }
        { gravity := 9.81, windVector := ⟨0, 0, 0⟩, airDensity := 1.2041 } =
      specDragAccel
        { position := ⟨0, 0, 0⟩, velocity := ⟨10, 0, 0⟩, spin := ⟨0, 0, 0⟩,
          rotation := Quat.identity, mass := 1, area := 1, dragCoefficient := 0.47,
          spinDamping := 0.1, restitution := 0.5, momentOfInertia := ⟨1, 1, 1⟩,
          radius := 0.1 }
        { gravity := 9.81, windVector := ⟨0, 0, 0⟩, airDensity := 1.2041 } ∧
    Vec3.dot
        (dragForce
          { position := ⟨0, 0, 0⟩, velocity := ⟨10, 0, 0⟩, spin := ⟨0, 0, 0⟩,
            rotation := Quat.identity, mass := 1, area := 1, dragCoefficient := 0.47,
            spinDamping := 0.1, restitution := 0.5, momentOfInertia := ⟨1, 1, 1⟩,
            radius := 0.1 }
          { gravity := 9.81, windVector := ⟨0, 0, 0⟩, airDensity := 1.2041 })
        (({ position := ⟨0, 0, 0⟩, velocity := ⟨10, 0, 0⟩, spin := ⟨0, 0, 0⟩,
            rotation := Quat.identity, mass := 1, area := 1, dragCoefficient := 0.47,
            spinDamping := 0.1, restitution := 0.5, momentOfInertia := ⟨1, 1, 1⟩,
            radius := 0.1 } : ProjectileState).velocity.sub
          ({ gravity := 9.81, windVector := ⟨0, 0, 0⟩,
             airDensity := 1.2041 } : EnvironmentState).windVector) ≤ 0 :=
  dragForce_quadratic_opposing _ _ (by norm_num) (by norm_num) (by norm_num)
    (by norm_num) (by norm_num)

/-- C1: a head-on ground impact with zero spin and zero tangential contact
velocity at vertical speed minus ten and restitution one half rebounds with
vertical velocity exactly plus five, leaving both horizontal components
unchanged. -/
theorem handleGroundCollision_headOn_bounce (s : ProjectileState)
    (hspin : s.spin = Vec3.zero) (hvx : s.velocity.x = 0) (hvz : s.velocity.z = 0)
    (hvy : s.velocity.y = -10) (he : s.restitution = 0.5) (hm : 0 < s.mass)
    (hr : 0 < s.radius) (hIx : 0 < s.momentOfInertia.x)
    (hIy : 0 < s.momentOfInertia.y) (hIz : 0 < s.momentOfInertia.z) :
    (handleGroundCollision s).velocity.y = 5 ∧
    (handleGroundCollision s).velocity.x = s.velocity.x ∧
    (handleGroundCollision s).velocity.z = s.velocity.z := by
  have hm0 : s.mass ≠ 0 := ne_of_gt hm
  simp only [handleGroundCollision, hspin]
  norm_num [Vec3.cross, Vec3.zero, Vec3.smul, Vec3.add, Vec3.sub, Vec3.dot,
    Vec3.length, Vec3.lengthSq, hvx, hvy, hvz, he, Real.sqrt_zero]
  field_simp
  norm_num

/-- Witness for C1 at a concrete ball of mass 2 and radius one tenth. -/
theorem handleGroundCollision_headOn_bounce_witness :
    (handleGroundCollision
      { position := ⟨0, 0.1, 0⟩, velocity := ⟨0, -10, 0⟩, spin := ⟨0, 0, 0⟩,
        rotation := Quat.identity, mass := 2, area := 1, dragCoefficient := 0.47,
        spinDamping := 0.1, restitution := 0.5, momentOfInertia := ⟨1, 1, 1⟩,
        radius := 0.1 }).velocity.y = 5 ∧
    (handleGroundCollision
      { position := ⟨0, 0.1, 0⟩, velocity := ⟨0, -10, 0⟩, spin := ⟨0, 0, 0⟩,
        rotation := Quat.identity, mass := 2, area := 1, dragCoefficient := 0.47,
        spinDamping := 0.1, restitution := 0.5, momentOfInertia := ⟨1, 1, 1⟩,
        radius := 0.1 }).velocity.x =
      ({ position := ⟨0, 0.1, 0⟩, velocity := ⟨0, -10, 0⟩, spin := ⟨0, 0, 0⟩,
         rotation := Quat.identity, mass := 2, area := 1, dragCoefficient := 0.47,
         spinDamping := 0.1, restitution := 0.5, momentOfInertia := ⟨1, 1, 1⟩,
         radius := 0.1 } : ProjectileState).velocity.x ∧
    (handleGroundCollision
      { position := ⟨0, 0.1, 0⟩, velocity := ⟨0, -10, 0⟩, spin := ⟨0, 0, 0⟩,
        rotation := Quat.identity, mass := 2, area := 1, dragCoefficient := 0.47,
        spinDamping := 0.1, restitution := 0.5, momentOfInertia := ⟨1, 1, 1⟩,
        radius := 0.1 }).velocity.z =
      ({ position := ⟨0, 0.1, 0⟩, velocity := ⟨0, -10, 0⟩, spin := ⟨0, 0, 0⟩,
         rotation := Quat.identity, mass := 2, area := 1, dragCoefficient := 0.47,
         spinDamping := 0.1, restitution := 0.5, momentOfInertia := ⟨1, 1, 1⟩,
         radius := 0.1 } : ProjectileState).velocity.z :=
  handleGroundCollision_headOn_bounce _ rfl rfl rfl rfl rfl (by norm_num)
    (by norm_num) (by norm_num) (by norm_num) (by norm_num)

lemma magnusForce_eq_specMagnusAccel (s : ProjectileState) (env : EnvironmentState) :
    magnusForce s env = specMagnusAccel s env := rfl

/-- C6 counterexample: the force model does not follow one single return
convention; neither of the two uniform conventions matches all three of
gravityForce, dragForce and magnusForce. -/
theorem forceModel_convention_mixed_cex :
    ¬ (FollowsForceConvention ∨ FollowsAccelConvention) := by
  rintro (hF | hA)
  · obtain ⟨-, -, hM⟩ := hF
      { position := ⟨0, 0, 0⟩, velocity := ⟨10, 0, 0⟩, spin := ⟨0, 0, 1⟩,
        rotation := Quat.identity, mass := 2, area := 1, dragCoefficient := 0.47,
        spinDamping := 0.1, restitution := 0.5, momentOfInertia := ⟨1, 1, 1⟩,
        radius := 0.1 }
      { gravity := 9.81, windVector := ⟨0, 0, 0⟩, airDensity := 1.2041 }
    have h100 : Real.sqrt 100 = 10 := by
      rw [show (100 : ℝ) = 10 ^ 2 by norm_num]
      exact Real.sqrt_sq (by norm_num)
    have hy := congrArg Vec3.y hM
    norm_num [magnusForce, specMagnusForce, Vec3.sub, Vec3.lengthSq, Vec3.length,
      Vec3.cross, Vec3.smul, Vec3.zero, airDensityAtAltitude, SCALE_HEIGHT,
      magnusLiftCoefficient, Real.sqrt_one, h100, Real.exp_zero] at hy
  · obtain ⟨hG, -, -⟩ := hA
      { position := ⟨0, 0, 0⟩, velocity := ⟨10, 0, 0⟩, spin := ⟨0, 0, 1⟩,
        rotation := Quat.identity, mass := 2, area := 1, dragCoefficient := 0.47,
        spinDamping := 0.1, restitution := 0.5, momentOfInertia := ⟨1, 1, 1⟩,
        radius := 0.1 }
      { gravity := 9.81, windVector := ⟨0, 0, 0⟩, airDensity := 1.2041 }
    have hy := congrArg Vec3.y hG
    norm_num [gravityForce, specGravityAccel] at hy

/-- C6 amended: the conventions are mixed but compensated: gravityForce
returns the raw force, dragForce and magnusForce return pre-divided
accelerations, and totalAcceleration multiplies gravity by one over mass so
the integrator receives a dimensionally consistent acceleration sum. -/
theorem forceModel_convention_amended (s : ProjectileState) (env : EnvironmentState) :
    gravityForce s env = specGravityForce s env ∧
    dragForce s env = specDragAccel s env ∧
    magnusForce s env = specMagnusAccel s env ∧
    totalAcceleration s env =
      ((Vec3.smul (1 / s.mass) (specGravityForce s env)).add
        (specDragAccel s env)).add (specMagnusAccel s env) := by
  refine ⟨rfl, dragForce_eq_specDragAccel s env, rfl, ?_⟩
  simp only [totalAcceleration, Vec3.zero_add, dragForce_eq_specDragAccel]
  rfl

/-- C4 counterexample: the drag coefficient is not continuous at the Stokes
boundary Re equal to 1, where the left branch tends to 24 while the value at 1
is 27.6. -/
theorem dragCoefficient_discontinuous_at_stokes :
    ¬ ContinuousAt (fun re => dragCoefficient re 0.47) 1 := by
  intro h
  have h1 : Filter.Tendsto (fun re => dragCoefficient re 0.47)
      (nhdsWithin 1 (Set.Iio 1)) (nhds (dragCoefficient 1 0.47)) :=
    h.continuousWithinAt
  have hev : (fun re : ℝ => 24 / re) =ᶠ[nhdsWithin 1 (Set.Iio 1)]
      (fun re => dragCoefficient re 0.47) := by
    filter_upwards [Ioo_mem_nhdsWithin_Iio' (show (0 : ℝ) < 1 by norm_num)] with re hre
    unfold dragCoefficient
    rw [if_pos hre.2]
  have h2 : Filter.Tendsto (fun re => dragCoefficient re 0.47)
      (nhdsWithin 1 (Set.Iio 1)) (nhds 24) := by
    have hc : ContinuousAt (fun re : ℝ => 24 / re) 1 :=
      ContinuousAt.div continuousAt_const continuousAt_id (by norm_num)
    have hlim : Filter.Tendsto (fun re : ℝ => 24 / re)
        (nhdsWithin 1 (Set.Iio 1)) (nhds 24) := by
      have hcw := hc.continuousWithinAt (s := Set.Iio 1)
      have h2 : Filter.Tendsto (fun re : ℝ => 24 / re) (nhdsWithin 1 (Set.Iio 1))
          (nhds ((24 : ℝ) / 1)) := hcw
      simpa using h2
    exact hlim.congr' hev
  have heq : (24 : ℝ) = dragCoefficient 1 0.47 := tendsto_nhds_unique h2 h1
  norm_num [dragCoefficient, Real.one_rpow] at heq

/-- C4 amended: the drag coefficient is continuous in Re at the drag-crisis
boundaries 300000 and 500000 for every baseCd; at the boundary Re equal to 1
it jumps from 24 to 27.6, as the counterexample shows. -/
theorem dragCoefficient_continuous_at_drag_crisis (baseCd : ℝ) :
    ContinuousAt (fun re => dragCoefficient re baseCd) 300000 ∧
    ContinuousAt (fun re => dragCoefficient re baseCd) 500000 := by
  constructor
  · have hg : Continuous
        (fun re : ℝ => baseCd * (1 - 0.6 * max 0 ((re - 300000) / 200000))) :=
      continuous_const.mul (continuous_const.sub (continuous_const.mul
        (continuous_const.max ((continuous_id.sub continuous_const).div_const _))))
    apply ContinuousAt.congr hg.continuousAt
    filter_upwards [Ioo_mem_nhds (show (1000 : ℝ) < 300000 by norm_num)
      (show (300000 : ℝ) < 500000 by norm_num)] with re hre
    obtain ⟨hlo, hhi⟩ := hre
    unfold dragCoefficient
    rw [if_neg (by linarith), if_neg (by linarith)]
    by_cases h3 : re < 300000
    · rw [if_pos h3]
      rw [max_eq_left (div_nonpos_of_nonpos_of_nonneg (by linarith) (by norm_num))]
      ring
    · rw [if_neg h3, if_pos hhi]
      rw [max_eq_right (div_nonneg (by push_neg at h3; linarith) (by norm_num))]
  · have hg : Continuous
        (fun re : ℝ => baseCd * (1 - 0.6 * min 1 ((re - 300000) / 200000))) :=
      continuous_const.mul (continuous_const.sub (continuous_const.mul
        ((continuous_const.min ((continuous_id.sub continuous_const).div_const _)))))
    apply ContinuousAt.congr hg.continuousAt
    filter_upwards [Ioo_mem_nhds (show (300000 : ℝ) < 500000 by norm_num)
      (show (500000 : ℝ) < 600000 by norm_num)] with re hre
    obtain ⟨hlo, hhi⟩ := hre
    unfold dragCoefficient
    rw [if_neg (by linarith), if_neg (by linarith), if_neg (by linarith)]
    by_cases h4 : re < 500000
    · rw [if_pos h4]
      rw [min_eq_right ((div_le_one (by norm_num)).mpr (by linarith))]
    · rw [if_neg h4]
      rw [min_eq_left ((one_le_div (by norm_num)).mpr (by push_neg at h4; linarith))]
      ring

lemma handleGroundCollision_posY (s : ProjectileState) :
    (handleGroundCollision s).position.y = s.radius := by
  simp only [handleGroundCollision]
  split_ifs <;> rfl

lemma handleGroundCollision_radius (s : ProjectileState) :
    (handleGroundCollision s).radius = s.radius := by
  simp only [handleGroundCollision]
  split_ifs <;> rfl

lemma clampToGround_above (s : ProjectileState) :
    (clampToGround s).radius ≤ (clampToGround s).position.y := by
  unfold clampToGround
  split_ifs with h
  · exact le_refl _
  · exact not_lt.mp h

lemma resolveCollision_above (s : ProjectileState) (b : Bool)
    (hs : s.radius ≤ s.position.y) :
    (resolveCollision s b).1.radius ≤ (resolveCollision s b).1.position.y := by
  unfold resolveCollision
  split_ifs with h
  · simp only []
    rw [handleGroundCollision_posY, handleGroundCollision_radius]
  · exact hs

/-- C10: one engine sub-step on an active projectile never leaves it below the
ground plane: afterwards the center height is at least the radius, whether the
step ended airborne, clamped, or in a resolved collision. -/
theorem integrateProjectile_stays_above_ground (p : ProjectileInstance) (dt : ℝ)
    (hp : p.active = true) :
    (integrateProjectile p dt).state.position.y ≥ (integrateProjectile p dt).state.radius := by
  simp only [integrateProjectile, hp]
  norm_num
  exact resolveCollision_above _ _ (clampToGround_above _)

/-- Witness for C10 at a concrete active instance resting above the ground. -/
theorem integrateProjectile_stays_above_ground_witness :
    (integrateProjectile
      { state :=
          { position := ⟨0, 1.2, 0⟩, velocity := ⟨0, 0, 0⟩, spin := ⟨0, 0, 0⟩,
            rotation := Quat.identity, mass := 1, area := 1, dragCoefficient := 0.47,
            spinDamping := 0.1, restitution := 0.5, momentOfInertia := ⟨1, 1, 1⟩,
            radius := 0.1 },
        environment := { gravity := 9.81, windVector := ⟨0, 0, 0⟩, airDensity := 1.2041 },
        profile := { duration := 0.2, impulse := fun _ => ⟨0, 0, 0⟩,
                     spinAxis := ⟨0, 0, 1⟩, spinRate := 0 },
        elapsed := 0, telemetryTimer := 0, samples := [], summary := none,
        isGrounded := false, active := true } 0.016).state.position.y ≥
    (integrateProjectile
      { state :=
          { position := ⟨0, 1.2, 0⟩, velocity := ⟨0, 0, 0⟩, spin := ⟨0, 0, 0⟩,
            rotation := Quat.identity, mass := 1, area := 1, dragCoefficient := 0.47,
            spinDamping := 0.1, restitution := 0.5, momentOfInertia := ⟨1, 1, 1⟩,
            radius := 0.1 },
        environment := { gravity := 9.81, windVector := ⟨0, 0, 0⟩, airDensity := 1.2041 },
        profile := { duration := 0.2, impulse := fun _ => ⟨0, 0, 0⟩,
                     spinAxis := ⟨0, 0, 1⟩, spinRate := 0 },
        elapsed := 0, telemetryTimer := 0, samples := [], summary := none,
        isGrounded := false, active := true } 0.016).state.radius :=
  integrateProjectile_stays_above_ground _ 0.016 rfl

end ProjectileSim
